import Mathlib

/-!
Shallow embedding of the OnBoard-Assist chat pipeline (Node/Express backend).

The pure helpers of `src/server/routes/chat.js` (`generateQuickReplies`,
`analyzeQueryIntent`), the Gemini gateway of `src/server/server.js`
(`GeminiService.generateResponse`), the Mongoose model statics
(`KnowledgeBase.searchByRole`) and the route handlers (`POST /chat`,
`POST /chat/feedback`, `GET /history`, `GET /export/:sessionId`,
`DELETE /:sessionId`, `DELETE /`) are translated into executable Lean
functions.  External effects (MongoDB queries, the Gemini HTTP call,
wall-clock timestamps, fresh identifiers) are passed in as explicit
oracle arguments; the handlers themselves are pure functions from the
request plus those oracle outcomes to the HTTP response and the
post-state of the stores.
-/

set_option linter.unusedVariables false

namespace OnboardAssist

/-- One apostrophe character (codepoint 39), used to build literal
message strings from the source. -/
def apos : String := String.singleton (Char.ofNat 39)

/-- `listHasSub sub l` : does `l` contain `sub` as a contiguous sublist?
Backs the JS `String.prototype.includes` calls of the source. -/
def listHasSub (sub : List Char) : List Char → Bool
  | [] => sub.isEmpty
  | c :: cs => sub.isPrefixOf (c :: cs) || listHasSub sub cs

/-- JS `s.includes(sub)`. -/
def jsIncludes (s sub : String) : Bool := listHasSub sub.toList s.toList

/-- JS regex word character class `\w = [A-Za-z0-9_]`. -/
def isWordChar (c : Char) : Bool := c.isAlphanum || c == '_'

/-- Does the pattern occur at the head of `rest`, with a word boundary
(`\b`) immediately after it? -/
def patAt (pat rest : List Char) : Bool :=
  match pat, rest with
  | [], [] => true
  | [], c :: _ => !isWordChar c
  | _ :: _, [] => false
  | p :: ps, c :: cs => p == c && patAt ps cs

/-- Word boundary before a match: start of string or a non-word char. -/
def boundaryOk : Option Char → Bool
  | none => true
  | some c => !isWordChar c

/-- Scan the text for an occurrence of `pat` flanked by word boundaries;
`prev` is the character just before the current position. -/
def findWordFrom (pat : List Char) : Option Char → List Char → Bool
  | prev, [] => boundaryOk prev && patAt pat []
  | prev, c :: cs => (boundaryOk prev && patAt pat (c :: cs)) || findWordFrom pat (some c) cs

/-- The regex `\b(kw)\b` tested against `text` (both already lowercase). -/
def containsWord (text kw : String) : Bool :=
  findWordFrom kw.toList none text.toList

/-- JS `s.toLowerCase()` on ASCII text, written over the character list
so that it evaluates by kernel reduction. -/
def jsToLower (s : String) : String := String.mk (s.toList.map Char.toLower)

/-- The ordered intent table of `analyzeQueryIntent` (chat.js lines 69-79):
each regex `\b(a|b|...)\b/i` is recorded as its list of alternatives. -/
def intentPatterns : List (String × List String) :=
  [ ("greeting", ["hello", "hi", "hey", "greetings", "good morning", "good afternoon", "welcome"]),
    ("thanks", ["thanks", "thank you", "appreciate", "grateful"]),
    ("policy", ["policy", "policies", "rule", "rules", "guideline", "guidelines", "procedure"]),
    ("benefit", ["benefit", "benefits", "insurance", "health", "401k", "retirement", "wellness"]),
    ("hr", ["hr", "human resources", "leave", "vacation", "holiday", "time off", "pto", "payroll"]),
    ("it", ["it", "tech", "technical", "computer", "laptop", "software", "hardware", "password", "login", "email"]),
    ("emergency", ["emergency", "urgent", "immediate", "help now", "critical", "asap"]),
    ("equipment", ["equipment", "laptop", "phone", "desk", "chair", "monitor", "hardware"]),
    ("training", ["training", "onboarding", "orientation", "learn", "course", "tutorial"]) ]

/-- `analyzeQueryIntent` (chat.js lines 66-88): lowercase the query, test
the patterns in table order, first match wins, default `general`. -/
def analyzeQueryIntent (query : String) : String :=
  let lowerQuery := jsToLower query
  match intentPatterns.find? (fun p => p.2.any (fun kw => containsWord lowerQuery kw)) with
  | some p => p.1
  | none => "general"

/-- The knowledge-result objects produced by `searchKnowledgeBase`
(chat.js lines 18-25): id, title, truncated content, category, summary,
relevance score.  The Mongo text score is modelled as an integer-valued
oracle since only its ordering is ever used. -/
structure KDoc where
  id : Nat
  title : String
  content : String
  category : String
  summary : String
  score : Int
deriving DecidableEq

/-- The fixed default quick replies (chat.js lines 34-39). -/
def defaultReplies : List String :=
  ["What are the working hours?", "How do I request vacation?",
   "Who do I contact for IT issues?", "What benefits are available?"]

/-- JS `[...new Set(xs)]`: de-duplicate keeping first occurrences. -/
def jsSetDedup (l : List String) : List String :=
  l.foldl (fun acc x => if x ∈ acc then acc else acc ++ [x]) []

/-- The category → label table of `generateQuickReplies`
(chat.js lines 50-57); an unknown category maps to `cat + " info"`. -/
def quickReplyLabel (cat : String) : String :=
  if cat = "policy" then "Company policies"
  else if cat = "benefits" then "Employee benefits"
  else if cat = "it" then "IT support"
  else if cat = "hr" then "HR questions"
  else if cat = "general" then "General information"
  else cat ++ " info"

/-- The distinct categories of the results in first-occurrence order
(the `Set` built by the `forEach` of chat.js lines 42-47; the JS
truthiness test `if (doc.category)` excludes the empty string). -/
def categoriesOf (docs : List KDoc) : List String :=
  jsSetDedup (docs.filterMap (fun d => if d.category = "" then none else some d.category))

/-- `generateQuickReplies` (chat.js lines 33-63): four defaults, one
label per distinct category, de-duplicated, truncated to 5. -/
def generateQuickReplies (userQuery : String) (knowledgeResults : List KDoc)
    (userRole : String) : List String :=
  let categoryReplies := (categoriesOf knowledgeResults).map quickReplyLabel
  (jsSetDedup (defaultReplies ++ categoryReplies)).take 5

/-- A concrete IT-category search result. -/
def itDoc : KDoc :=
  { id := 1, title := "VPN setup", content := "how to set up the vpn",
    category := "it", summary := "vpn", score := 2 }

/-- A concrete policy-category search result. -/
def policyDoc : KDoc :=
  { id := 2, title := "Leave policy", content := "leave policy details",
    category := "policy", summary := "leave", score := 1 }

/-- C9: intent classification is case-insensitive, first match wins in
table order, and the four spec examples classify as stated: greeting,
hr, it, general. -/
theorem analyzeQueryIntent_examples :
    analyzeQueryIntent "Hello there!" = "greeting" ∧
    analyzeQueryIntent "How do I request vacation?" = "hr" ∧
    analyzeQueryIntent ("My laptop won" ++ apos ++ "t turn on") = "it" ∧
    analyzeQueryIntent "asdlkj random text" = "general" ∧
    analyzeQueryIntent "HELLO THERE!" = "greeting" ∧
    analyzeQueryIntent "thanks for the laptop" = "thanks" := by
  decide

/-- C1 counterexample: with knowledge results spanning exactly the
categories it and policy (in that order), the derived list is the four
defaults plus only "IT support"; no policy-labeled suggestion survives
the truncation to 5. -/
theorem generateQuickReplies_no_policy_label :
    generateQuickReplies "question" [itDoc, policyDoc] "employee" =
      ["What are the working hours?", "How do I request vacation?",
       "Who do I contact for IT issues?", "What benefits are available?", "IT support"] ∧
    "Company policies" ∉ generateQuickReplies "question" [itDoc, policyDoc] "employee" := by
  decide

/-- C1 amended: the derived list always has length at most 5, and when
the results span exactly the categories policy and it, the list is the
four defaults followed by the label of whichever category occurs first;
the other category label is truncated away. -/
theorem generateQuickReplies_len_and_first_category
    (q : String) (docs : List KDoc) (role : String) :
    (generateQuickReplies q docs role).length ≤ 5 ∧
    (∀ c1 c2, categoriesOf docs = [c1, c2] →
      (c1 = "policy" ∧ c2 = "it") ∨ (c1 = "it" ∧ c2 = "policy") →
      generateQuickReplies q docs role = defaultReplies ++ [quickReplyLabel c1]) := by
  constructor
  · simp only [generateQuickReplies, List.length_take]
    omega
  · intro c1 c2 hcat hc
    simp only [generateQuickReplies, hcat]
    rcases hc with ⟨h1, h2⟩ | ⟨h1, h2⟩ <;> subst h1 <;> subst h2 <;> decide

/-- Witness for the amended C1 theorem at a concrete input. -/
theorem generateQuickReplies_len_and_first_category_witness :
    generateQuickReplies "q" [policyDoc, itDoc] "hr" = defaultReplies ++ [quickReplyLabel "policy"] :=
  (generateQuickReplies_len_and_first_category "q" [policyDoc, itDoc] "hr").2
    "policy" "it" (by decide) (Or.inl ⟨rfl, rfl⟩)

/-! ## Language Model Gateway (`GeminiService`, src/server/server.js) -/

/-- Failure of the external Gemini call.  The service inspects only the
error message text, so an error is modelled as its message string. -/
structure GeminiError where
  message : String
deriving DecidableEq

/-- Split a character list into lines at newline characters. -/
def splitLines : List Char → List (List Char)
  | [] => [[]]
  | c :: cs =>
    match splitLines cs with
    | [] => [[]]
    | line :: rest => if c == '\n' then [] :: line :: rest else (c :: line) :: rest

/-- Re-join lines with newline characters. -/
def joinLines (ls : List (List Char)) : List Char :=
  List.intercalate ['\n'] ls

/-- The regex `^\*+` with the m flag: strip leading asterisks from a line. -/
def stripStars (line : List Char) : List Char :=
  line.dropWhile (fun c => c == '*')

/-- The regex `^#+\s*` with the m flag: if a line starts with `#`, strip
the run of `#` and any following whitespace. -/
def stripHeader (line : List Char) : List Char :=
  match line with
  | '#' :: _ => (line.dropWhile (fun c => c == '#')).dropWhile Char.isWhitespace
  | _ => line

/-- Split a character list at the first occurrence of `delim`, returning
the text before it and the text after it. -/
def splitFirst (delim : List Char) : List Char → Option (List Char × List Char)
  | [] => if delim.isEmpty then some ([], []) else none
  | c :: cs =>
    if delim.isPrefixOf (c :: cs) then some ([], (c :: cs).drop delim.length)
    else
      match splitFirst delim cs with
      | some (pre, post) => some (c :: pre, post)
      | none => none

/-- A fenced-code-block delimiter. -/
def fence : List Char := "```".toList

/-- One pass per fuel unit of the non-greedy global regex that removes
fenced code blocks: drop everything from an opening fence to the next
fence, repeat on the remainder; an unpaired fence is left in place. -/
def removeFencesAux : Nat → List Char → List Char
  | 0, l => l
  | fuel + 1, l =>
    match splitFirst fence l with
    | none => l
    | some (pre, rest) =>
      match splitFirst fence rest with
      | none => l
      | some (_, post) => pre ++ removeFencesAux fuel post

/-- Remove all paired fenced code blocks. -/
def removeFences (l : List Char) : List Char := removeFencesAux l.length l

/-- JS `s.trim()`: strip leading and trailing whitespace. -/
def listTrim (l : List Char) : List Char :=
  ((l.dropWhile Char.isWhitespace).reverse.dropWhile Char.isWhitespace).reverse

/-- The response post-processing of `generateResponse` (server.js lines
283-287): strip leading asterisks per line, strip markdown headers per
line, remove fenced code blocks, trim. -/
def cleanResponse (raw : String) : String :=
  let noStars := joinLines ((splitLines raw.toList).map stripStars)
  let noHeads := joinLines ((splitLines noStars).map stripHeader)
  String.mk (listTrim (removeFences noHeads))

/-- `getRoleContext` (server.js lines 347-356). -/
def getRoleContext (role : String) : String :=
  if role = "admin" then "Company Administrator (has access to all information)"
  else if role = "hr" then "HR Staff Member (has access to HR-related information)"
  else "New Employee (needs help with onboarding)"

/-- The prompt template of `generateResponse` (server.js lines 255-277),
with the template literal's interpolations; the surrounding indentation
whitespace of the literal is elided. -/
def buildPrompt (userQuestion context userRole userName : String) : String :=
  let roleContext := getRoleContext userRole
  let nameContext := if userName ≠ "" then " The user" ++ apos ++ "s name is " ++ userName ++ "." else ""
  "ROLE: You are an AI assistant for new employees at a company." ++ nameContext ++ "\n" ++
  "USER TYPE: " ++ roleContext ++ "\n\n" ++
  "CONTEXT FROM KNOWLEDGE BASE (use this information to answer):\n" ++
  (if context ≠ "" then context
   else "No specific context available. Use general knowledge about employee onboarding.") ++ "\n\n" ++
  "USER QUESTION:\n\"" ++ userQuestion ++ "\"\n\n" ++
  "INSTRUCTIONS:\n" ++
  "1. Answer based on the context provided above when possible\n" ++
  "2. If the answer is not in the context, say: \"I don" ++ apos ++
    "t have specific information about that in our knowledge base. Please contact " ++
    (if userRole = "hr" then "your manager" else "HR or your manager") ++ " for assistance.\"\n" ++
  "3. Be helpful, concise, and professional\n" ++
  "4. Use bullet points for lists\n" ++
  "5. End with a relevant follow-up question if appropriate\n" ++
  "6. Format your response in clear paragraphs\n" ++
  "7. Never mention that you" ++ apos ++ "re an AI or about the context/system\n" ++
  "8. If it" ++ apos ++ "s a greeting, respond warmly\n" ++
  "9. If it" ++ apos ++ "s a thank you, acknowledge politely\n\n" ++
  "RESPONSE (in plain text, no markdown):"

/-- The fallback returned when the error message mentions an invalid API
key or quota (server.js line 295). -/
def apiUnavailableMsg : String :=
  "I apologize, but the AI service is currently unavailable due to technical issues. Please try again later or contact IT support for assistance."

/-- The mock fallback returned on any other failure (server.js line 301). -/
def mockFallback (userQuestion : String) : String :=
  "I" ++ apos ++ "m having trouble connecting to the AI brain specifically, but I can still allow you to test the interface! (Error: Invalid API Key). \n\nNormally I would answer your question about \"" ++
    userQuestion ++ "\" based on company policy."

/-- `GeminiService.generateResponse` (server.js lines 250-303).  The
external call is an oracle `modelCall` from the composed prompt to the
raw outcome; the try/catch around it makes the function total: a raw
reply is cleaned, any thrown error is mapped to a fallback string. -/
def generateResponse (modelCall : String → Except GeminiError String)
    (userQuestion context userRole userName : String) : String :=
  match modelCall (buildPrompt userQuestion context userRole userName) with
  | Except.ok raw => cleanResponse raw
  | Except.error e =>
    if jsIncludes e.message "API_KEY_INVALID" || jsIncludes e.message "quota" then
      apiUnavailableMsg
    else
      mockFallback userQuestion

/-- C4: for every question, context, role and name, and for every thrown
error of the external model call, `generateResponse` still returns a
value (it is a total function) and that value is one of the two fixed
user-presentable fallback strings. -/
theorem generateResponse_fallback_on_error
    (modelCall : String → Except GeminiError String)
    (q c r n : String) (e : GeminiError)
    (h : modelCall (buildPrompt q c r n) = Except.error e) :
    generateResponse modelCall q c r n = apiUnavailableMsg ∨
    generateResponse modelCall q c r n = mockFallback q := by
  unfold generateResponse
  rw [h]
  cases hb : (jsIncludes e.message "API_KEY_INVALID" || jsIncludes e.message "quota") with
  | true => exact Or.inl (by simp [hb])
  | false => exact Or.inr (by simp [hb])

/-- Witness for C4 at a concrete failing oracle. -/
theorem generateResponse_fallback_on_error_witness :
    generateResponse (fun _ => Except.error ⟨"quota exceeded"⟩) "What are the working hours?" "" "employee" "Jo" = apiUnavailableMsg ∨
    generateResponse (fun _ => Except.error ⟨"quota exceeded"⟩) "What are the working hours?" "" "employee" "Jo" = mockFallback "What are the working hours?" :=
  generateResponse_fallback_on_error _ _ _ _ _ ⟨"quota exceeded"⟩ rfl

/-! ## Knowledge Store (`KnowledgeBase` model, src/server/models/KnowledgeBase.js) -/

/-- A stored knowledge entry (knowledgeBaseSchema).  File-related fields
and timestamps, which no claim touches, are elided; the Mongo `_id` is
the `id` field. -/
structure KnowledgeEntry where
  id : Nat
  title : String
  content : String
  summary : String
  category : String
  tags : List String
  accessRoles : List String
  isActive : Bool
  viewCount : Nat
  lastAccessed : Option Nat := none
deriving DecidableEq

/-- `KnowledgeBase.searchByRole` (KnowledgeBase.js lines 101-115).  The
Mongo `$text` match and `textScore` are oracles `tm` and `sc` (only the
score's ordering is used); the query keeps entries that text-match, are
active, and whose `accessRoles` is empty or contains the role, sorted by
score descending, truncated to `limit`. -/
def searchByRole (entries : List KnowledgeEntry)
    (tm : String → KnowledgeEntry → Bool) (sc : String → KnowledgeEntry → Int)
    (query role : String) (limit : Nat) : List KnowledgeEntry :=
  let hits := entries.filter (fun e =>
    tm query e && e.isActive && (e.accessRoles.isEmpty || decide (role ∈ e.accessRoles)))
  (hits.insertionSort (fun a b => sc query b ≤ sc query a)).take limit

/-- Any entry returned by `searchByRole` passed its filter. -/
theorem searchByRole_filter {entries tm sc query role limit} {e : KnowledgeEntry}
    (h : e ∈ searchByRole entries tm sc query role limit) :
    tm query e = true ∧ e.isActive = true ∧
      (e.accessRoles = [] ∨ role ∈ e.accessRoles) := by
  unfold searchByRole at h
  have h2 := (List.mem_insertionSort _).mp (List.mem_of_mem_take h)
  rw [List.mem_filter] at h2
  obtain ⟨-, hp⟩ := h2
  simp only [Bool.and_eq_true, Bool.or_eq_true, List.isEmpty_iff,
    decide_eq_true_eq] at hp
  exact ⟨hp.1.1, hp.1.2, hp.2⟩

/-- `searchKnowledgeBase` (chat.js lines 15-30): run the role-filtered
search capped at 7 results and project each hit, truncating the body to
1000 characters.  (The JS try/catch around the query cannot fire in this
pure model; on error it would return `[]`.) -/
def searchKnowledgeBase (kstore : List KnowledgeEntry)
    (tm : String → KnowledgeEntry → Bool) (sc : String → KnowledgeEntry → Int)
    (query userRole : String) : List KDoc :=
  (searchByRole kstore tm sc query userRole 7).map (fun doc =>
    { id := doc.id, title := doc.title,
      content := String.mk (doc.content.toList.take 1000),
      category := doc.category, summary := doc.summary, score := sc query doc })

/-- A concrete admin-only entry. -/
def adminEntry : KnowledgeEntry :=
  { id := 10, title := "Admin VPN", content := "vpn admin guide", summary := "vpn",
    category := "it", tags := [], accessRoles := ["admin"], isActive := true, viewCount := 0 }

/-- C6: every entry returned by `searchByRole` is active and passes the
role gate; an entry with accessRoles = [admin] is never returned for
role employee; and (concretely) such an entry is returned for role
admin when it text-matches. -/
theorem searchByRole_role_gating :
    (∀ (entries : List KnowledgeEntry) (tm : String → KnowledgeEntry → Bool)
       (sc : String → KnowledgeEntry → Int) (q role : String) (limit : Nat)
       (e : KnowledgeEntry), e ∈ searchByRole entries tm sc q role limit →
         e.isActive = true ∧ (e.accessRoles = [] ∨ role ∈ e.accessRoles)) ∧
    (∀ (entries : List KnowledgeEntry) (tm : String → KnowledgeEntry → Bool)
       (sc : String → KnowledgeEntry → Int) (q : String) (limit : Nat)
       (e : KnowledgeEntry), e.accessRoles = ["admin"] →
         e ∉ searchByRole entries tm sc q "employee" limit) ∧
    adminEntry ∈ searchByRole [adminEntry] (fun _ _ => true) (fun _ _ => 0) "vpn" "admin" 7 := by
  refine ⟨?_, ?_, by decide⟩
  · intro entries tm sc q role limit e h
    exact (searchByRole_filter h).2
  · intro entries tm sc q limit e hroles h
    rcases (searchByRole_filter h).2.2 with h2 | h2
    · rw [hroles] at h2; cases h2
    · rw [hroles] at h2; simp at h2

/-- Witness for C6 at a concrete input: the admin search of the
conjunction's last part feeds the first part. -/
theorem searchByRole_role_gating_witness :
    adminEntry.isActive = true ∧
      (adminEntry.accessRoles = [] ∨ "admin" ∈ adminEntry.accessRoles) :=
  searchByRole_role_gating.1 [adminEntry] (fun _ _ => true) (fun _ _ => 0)
    "vpn" "admin" 7 adminEntry searchByRole_role_gating.2.2

/-! ## Conversation Store and Chat Orchestrator (`POST /chat`, chat.js lines 91-231) -/

/-- The authenticated identity injected by the JWT middleware. -/
structure Identity where
  id : Nat
  email : String
  name : String
  role : String
deriving DecidableEq

/-- A message embedded in a conversation (messageSchema).  The absent
metadata keys of a user message (`responseTime`, `knowledgeSources`) are
`none`/`[]`; wall-clock timestamps and the userAgent string are elided. -/
structure Msg where
  role : String
  content : String
  quickReplies : List String := []
  intent : Option String := none
  knowledgeSources : List Nat := []
  responseTime : Option Nat := none
deriving DecidableEq

/-- The feedback stamp written onto a conversation (conversationSchema
`feedback`; `submittedAt` elided). -/
structure FeedbackStamp where
  rating : Int
  comment : String
deriving DecidableEq

/-- A stored conversation session (conversationSchema); `oid` is the
Mongo `_id`, device metadata and timestamps are elided. -/
structure Conversation where
  oid : Nat
  sessionId : String
  userId : Nat
  userEmail : String
  userName : String
  userRole : String
  messages : List Msg
  feedback : Option FeedbackStamp := none
deriving DecidableEq

/-- A thrown JS error as inspected by the route's catch handler: its
`name` and `message`. -/
structure JsError where
  name : String
  message : String
deriving DecidableEq

/-- The response of `POST /chat`: the success payload (chat.js lines
196-208) or an error status and user-facing reply text. -/
inductive ChatResp where
  | ok (reply sessionId : String) (quickReplies : List String)
      (conversationId : Nat) (sourcesCount : Nat)
  | err (status : Nat) (reply : String)
deriving DecidableEq

/-- The catch handler of `POST /chat` (chat.js lines 210-230): message
mentioning the API key or Gemini → 503, `MongoError` → 503 with the
database text, anything else → 500 with the generic text. -/
def chatCatchResp (e : JsError) : ChatResp :=
  if jsIncludes e.message "API key" || jsIncludes e.message "Gemini" then
    ChatResp.err 503 "The AI service is currently unavailable. Please try again later or contact IT support."
  else if e.name = "MongoError" then
    ChatResp.err 503 "Database connection issue. Please try again in a moment."
  else
    ChatResp.err 500 ("I" ++ apos ++ "m having trouble processing your request. Please try again.")

/-- JS `s.trim()`. -/
def jsTrim (s : String) : String := String.mk (listTrim s.toList)

/-- Session resolution (chat.js lines 114-137): look up the client's
session scoped by `(sessionId, userId)`; if absent or not found, create
a fresh session carrying the fresh id oracle values and a snapshot of
the caller identity, with no messages. -/
def resolveSession (store : List Conversation) (user : Identity)
    (clientSessionId : Option String) (freshSid : String) (freshOid : Nat) : Conversation :=
  let found := clientSessionId.bind (fun sid =>
    store.find? (fun c => c.sessionId == sid && c.userId == user.id))
  match found with
  | some c => c
  | none =>
    { oid := freshOid, sessionId := freshSid, userId := user.id, userEmail := user.email,
      userName := user.name, userRole := user.role, messages := [] }

/-- Mongoose `document.save()` on a conversation: replace the stored
document with the same `_id`, or insert it when new. -/
def saveConv (store : List Conversation) (c : Conversation) : List Conversation :=
  if store.any (fun d => d.oid == c.oid) then
    store.map (fun d => if d.oid == c.oid then c else d)
  else store ++ [c]

/-- JS `s.toUpperCase()` on ASCII text. -/
def jsToUpper (s : String) : String := String.mk (s.toList.map Char.toUpper)

/-- The prompt context block (chat.js lines 153-155): one labeled block
per result, or the explicit no-entries marker. -/
def buildContextText (docs : List KDoc) : String :=
  if docs.isEmpty then "No specific knowledge base entries found for this query."
  else String.intercalate "\n\n" (docs.map (fun doc =>
    "[" ++ jsToUpper doc.category ++ "] " ++ doc.title ++ ":\n" ++ doc.content))

/-- The view-count updates fired per used knowledge entry (chat.js lines
188-194): `viewCount` incremented and `lastAccessed` stamped (the
timestamp oracle `now`). -/
def bumpViews (kstore : List KnowledgeEntry) (ids : List Nat) (now : Nat) : List KnowledgeEntry :=
  kstore.map (fun e =>
    if ids.contains e.id then { e with viewCount := e.viewCount + 1, lastAccessed := some now }
    else e)

/-- The outcome of one `POST /chat` request: the HTTP response and the
post-state of the conversation and knowledge stores. -/
structure TurnResult where
  resp : ChatResp
  convStore : List Conversation
  kstore : List KnowledgeEntry
deriving DecidableEq

/-- The `POST /chat` handler (chat.js lines 91-231).  External effects
are oracle arguments: `tm`/`sc` the Mongo text index, `modelCall` the
Gemini call, `freshSid`/`freshOid` the generated identifiers, `rt` the
measured latency, `now` the clock, and `saveOutcome`/`incrementOutcome`
the success (`none`) or thrown error (`some e`) of `conversation.save()`
and of the awaited `Promise.all` of view-count updates.  A thrown error
lands in the catch handler; the increment failure can only fire when
there are knowledge results to update. -/
def handleTurn (convStore : List Conversation) (kstore : List KnowledgeEntry)
    (tm : String → KnowledgeEntry → Bool) (sc : String → KnowledgeEntry → Int)
    (modelCall : String → Except GeminiError String)
    (user : Identity) (message : String) (clientSessionId : Option String)
    (freshSid : String) (freshOid : Nat) (rt : Nat) (now : Nat)
    (saveOutcome incrementOutcome : Option JsError) : TurnResult :=
  if (jsTrim message).toList.isEmpty then
    ⟨ChatResp.err 400 "Please enter a question or message.", convStore, kstore⟩
  else if message.length > 1000 then
    ⟨ChatResp.err 400 "Your message is too long. Please keep it under 1000 characters.", convStore, kstore⟩
  else
    let userRole := if user.role = "" then "employee" else user.role
    let conv0 := resolveSession convStore user clientSessionId freshSid freshOid
    let userMsg : Msg := { role := "user", content := message,
                           intent := some (analyzeQueryIntent message) }
    let knowledgeContext := searchKnowledgeBase kstore tm sc message userRole
    let contextText := buildContextText knowledgeContext
    let botResponse := generateResponse modelCall message contextText userRole user.name
    let quickReplies := generateQuickReplies message knowledgeContext userRole
    let botMsg : Msg := { role := "bot", content := botResponse, quickReplies := quickReplies,
                          knowledgeSources := knowledgeContext.map (fun d => d.id),
                          responseTime := some rt }
    let conv1 := { conv0 with messages := conv0.messages ++ [userMsg, botMsg] }
    match saveOutcome with
    | some e => ⟨chatCatchResp e, convStore, kstore⟩
    | none =>
      let convStore1 := saveConv convStore conv1
      if knowledgeContext.isEmpty then
        ⟨ChatResp.ok botResponse conv1.sessionId quickReplies conv1.oid knowledgeContext.length,
          convStore1, kstore⟩
      else
        match incrementOutcome with
        | some e => ⟨chatCatchResp e, convStore1, kstore⟩
        | none =>
          ⟨ChatResp.ok botResponse conv1.sessionId quickReplies conv1.oid knowledgeContext.length,
            convStore1, bumpViews kstore (knowledgeContext.map (fun d => d.id)) now⟩

/-- A saved conversation is in the store `save` returns. -/
theorem mem_saveConv (store : List Conversation) (c : Conversation) :
    c ∈ saveConv store c := by
  unfold saveConv
  split
  · next h =>
    rw [List.any_eq_true] at h
    obtain ⟨d, hd, hbe⟩ := h
    exact List.mem_map.mpr ⟨d, hd, by rw [if_pos hbe]⟩
  · exact List.mem_append_right _ (List.mem_singleton.mpr rfl)

/-- The catch handler only ever produces an error response. -/
theorem chatCatchResp_is_err (e : JsError) :
    ∃ status reply, chatCatchResp e = ChatResp.err status reply := by
  unfold chatCatchResp
  split
  · exact ⟨_, _, rfl⟩
  · split
    · exact ⟨_, _, rfl⟩
    · exact ⟨_, _, rfl⟩

/-- C5: a successful `POST /chat` turn (valid message, save and
view-count updates do not throw) returns the success payload and leaves
in the store a conversation, under the resolved session's id, whose
message log is the resolved session's log plus exactly one user message
followed by one bot message whose content is the returned reply — for
every model-gateway oracle, including failing ones. -/
theorem handleTurn_appends_exactly_two
    (convStore : List Conversation) (kstore : List KnowledgeEntry)
    (tm : String → KnowledgeEntry → Bool) (sc : String → KnowledgeEntry → Int)
    (modelCall : String → Except GeminiError String)
    (user : Identity) (message : String) (clientSessionId : Option String)
    (freshSid : String) (freshOid rt now : Nat)
    (hmsg : (jsTrim message).toList ≠ []) (hlen : ¬ message.length > 1000) :
    ∃ c, c ∈ (handleTurn convStore kstore tm sc modelCall user message clientSessionId
                freshSid freshOid rt now none none).convStore ∧
      c.sessionId = (resolveSession convStore user clientSessionId freshSid freshOid).sessionId ∧
      c.messages.length =
        (resolveSession convStore user clientSessionId freshSid freshOid).messages.length + 2 ∧
      ∃ u b, c.messages =
          (resolveSession convStore user clientSessionId freshSid freshOid).messages ++ [u, b] ∧
        u.role = "user" ∧ b.role = "bot" ∧
        (handleTurn convStore kstore tm sc modelCall user message clientSessionId
            freshSid freshOid rt now none none).resp =
          ChatResp.ok b.content c.sessionId b.quickReplies c.oid b.knowledgeSources.length := by
  have hempty : (jsTrim message).toList.isEmpty = false := by
    cases he : (jsTrim message).toList.isEmpty
    · rfl
    · exact absurd (List.isEmpty_iff.mp he) hmsg
  unfold handleTurn
  rw [hempty]
  rw [if_neg Bool.false_ne_true, if_neg hlen]
  dsimp only
  split <;> split <;>
    exact ⟨_, mem_saveConv _ _, rfl, by simp, _, _, rfl, rfl, rfl, by simp⟩

/-- A concrete employee identity. -/
def employeeUser : Identity :=
  { id := 1, email := "john.doe@company.com", name := "John", role := "employee" }

/-- A concrete active, unrestricted knowledge entry. -/
def kbEntry : KnowledgeEntry :=
  { id := 5, title := "Working hours", content := "Working hours are 9 to 5.",
    summary := "hours", category := "policy", tags := [], accessRoles := [],
    isActive := true, viewCount := 0 }

/-- Witness for C5 at a concrete input, with a failing model gateway. -/
theorem handleTurn_appends_exactly_two_witness :
    ∃ c, c ∈ (handleTurn [] [kbEntry] (fun _ _ => true) (fun _ _ => 0)
                (fun _ => Except.error ⟨"API_KEY_INVALID"⟩) employeeUser "hi" none
                "session-1" 100 5 77 none none).convStore ∧
      c.sessionId = (resolveSession [] employeeUser none "session-1" 100).sessionId ∧
      c.messages.length = (resolveSession [] employeeUser none "session-1" 100).messages.length + 2 ∧
      ∃ u b, c.messages = (resolveSession [] employeeUser none "session-1" 100).messages ++ [u, b] ∧
        u.role = "user" ∧ b.role = "bot" ∧
        (handleTurn [] [kbEntry] (fun _ _ => true) (fun _ _ => 0)
            (fun _ => Except.error ⟨"API_KEY_INVALID"⟩) employeeUser "hi" none
            "session-1" 100 5 77 none none).resp =
          ChatResp.ok b.content c.sessionId b.quickReplies c.oid b.knowledgeSources.length :=
  handleTurn_appends_exactly_two [] [kbEntry] (fun _ _ => true) (fun _ _ => 0)
    (fun _ => Except.error ⟨"API_KEY_INVALID"⟩) employeeUser "hi" none
    "session-1" 100 5 77 (by decide) (by decide)

/-- C2 counterexample: a turn whose reply was generated and whose
session was saved, but whose awaited view-count update throws a
`MongoError`, answers the caller with a 503 error response, not the
success payload. -/
theorem increment_failure_changes_response :
    (handleTurn [] [kbEntry] (fun _ _ => true) (fun _ _ => 0)
        (fun _ => Except.ok "Nine to five.") employeeUser "hi" none
        "session-1" 100 5 77 none (some ⟨"MongoError", "connection lost"⟩)).resp =
      ChatResp.err 503 "Database connection issue. Please try again in a moment." := by
  decide

/-- C2 amended: when the knowledge search returned entries, the save
succeeded, and the awaited view-count update throws, the caller receives
the catch handler's error response (never the success payload) even
though the session was persisted with both new messages. -/
theorem handleTurn_increment_failure_errors
    (convStore : List Conversation) (kstore : List KnowledgeEntry)
    (tm : String → KnowledgeEntry → Bool) (sc : String → KnowledgeEntry → Int)
    (modelCall : String → Except GeminiError String)
    (user : Identity) (message : String) (clientSessionId : Option String)
    (freshSid : String) (freshOid rt now : Nat) (e : JsError)
    (hmsg : (jsTrim message).toList ≠ []) (hlen : ¬ message.length > 1000)
    (hk : searchKnowledgeBase kstore tm sc message
        (if user.role = "" then "employee" else user.role) ≠ []) :
    (handleTurn convStore kstore tm sc modelCall user message clientSessionId
        freshSid freshOid rt now none (some e)).resp = chatCatchResp e ∧
    (∃ status reply, (handleTurn convStore kstore tm sc modelCall user message clientSessionId
        freshSid freshOid rt now none (some e)).resp = ChatResp.err status reply) ∧
    ∃ c, c ∈ (handleTurn convStore kstore tm sc modelCall user message clientSessionId
          freshSid freshOid rt now none (some e)).convStore ∧
      c.messages.length =
        (resolveSession convStore user clientSessionId freshSid freshOid).messages.length + 2 := by
  have hempty : (jsTrim message).toList.isEmpty = false := by
    cases he : (jsTrim message).toList.isEmpty
    · rfl
    · exact absurd (List.isEmpty_iff.mp he) hmsg
  have hkfalse : (searchKnowledgeBase kstore tm sc message
      (if user.role = "" then "employee" else user.role)).isEmpty = false := by
    cases he : (searchKnowledgeBase kstore tm sc message
        (if user.role = "" then "employee" else user.role)).isEmpty
    · rfl
    · exact absurd (List.isEmpty_iff.mp he) hk
  unfold handleTurn
  rw [hempty]
  rw [if_neg Bool.false_ne_true, if_neg hlen]
  dsimp only
  split
  · next hrole =>
    rw [if_pos hrole] at hkfalse
    split
    · next hkc => rw [hkfalse] at hkc; exact absurd hkc Bool.false_ne_true
    · exact ⟨rfl, chatCatchResp_is_err e, _, mem_saveConv _ _, by simp⟩
  · next hrole =>
    rw [if_neg hrole] at hkfalse
    split
    · next hkc => rw [hkfalse] at hkc; exact absurd hkc Bool.false_ne_true
    · exact ⟨rfl, chatCatchResp_is_err e, _, mem_saveConv _ _, by simp⟩

/-- Witness for the amended C2 theorem at a concrete input. -/
theorem handleTurn_increment_failure_errors_witness :
    (handleTurn [] [kbEntry] (fun _ _ => true) (fun _ _ => 0)
        (fun _ => Except.ok "Nine to five.") employeeUser "hello" none
        "session-2" 101 5 77 none (some ⟨"TypeError", "oops"⟩)).resp =
      chatCatchResp ⟨"TypeError", "oops"⟩ ∧
    (∃ status reply, (handleTurn [] [kbEntry] (fun _ _ => true) (fun _ _ => 0)
        (fun _ => Except.ok "Nine to five.") employeeUser "hello" none
        "session-2" 101 5 77 none (some ⟨"TypeError", "oops"⟩)).resp = ChatResp.err status reply) ∧
    ∃ c, c ∈ (handleTurn [] [kbEntry] (fun _ _ => true) (fun _ _ => 0)
          (fun _ => Except.ok "Nine to five.") employeeUser "hello" none
          "session-2" 101 5 77 none (some ⟨"TypeError", "oops"⟩)).convStore ∧
      c.messages.length = (resolveSession [] employeeUser none "session-2" 101).messages.length + 2 :=
  handleTurn_increment_failure_errors [] [kbEntry] (fun _ _ => true) (fun _ _ => 0)
    (fun _ => Except.ok "Nine to five.") employeeUser "hello" none
    "session-2" 101 5 77 ⟨"TypeError", "oops"⟩ (by decide) (by decide) (by decide)

/-! ## Feedback (`POST /chat/feedback`, chat.js lines 306-389; Feedback.js) -/

/-- JS `parseInt` on a (finite decimal) number: truncation toward zero. -/
def jsParseInt (q : ℚ) : Int := if 0 ≤ q then q.floor else -((-q).floor)

/-- JS `x || d` for an optional boolean `x`: only an explicit `true`
short-circuits; `false`, `null` and `undefined` all fall through to the
default. -/
def jsOrBool (o : Option Bool) (d : Bool) : Bool :=
  match o with
  | some true => true
  | _ => d

/-- JS `x || d` for an optional string `x`: the empty string is falsy. -/
def jsOrStr (o : Option String) (d : String) : String :=
  match o with
  | some s => if s = "" then d else s
  | none => d

/-- A stored feedback document (feedbackSchema).  `correctAnswer`,
`tags`, `modelUsed` and timestamps, which no claim touches, are elided;
the `comment` field carries the route's `comment || ''`. -/
structure FeedbackRecord where
  conversationId : Nat
  userId : Nat
  userEmail : String
  userRole : String
  question : String
  botResponse : String
  rating : Int
  comment : String
  isHelpful : Bool
  category : String
  responseTime : Nat
  sourceCount : Nat
deriving DecidableEq

/-- The response of `POST /chat/feedback`. -/
inductive FbResp where
  | ok (record : FeedbackRecord)
  | err (status : Nat) (msg : String)
deriving DecidableEq

/-- Outcome of one feedback submission: response plus store post-states. -/
structure FbResult where
  resp : FbResp
  convStore : List Conversation
  fs : List FeedbackRecord
deriving DecidableEq

/-- The feedback document constructed at chat.js lines 346-362, given
the already-denormalized question/response strings. -/
def feedbackRecordOf (user : Identity) (conversation : Conversation) (cid : Nat)
    (rating : ℚ) (comment : Option String) (lastQuestion lastResponse : String)
    (isHelpful : Option Bool) : FeedbackRecord :=
  { conversationId := cid, userId := user.id, userEmail := user.email, userRole := user.role,
    question := lastQuestion, botResponse := lastResponse,
    rating := jsParseInt rating,
    comment := jsOrStr comment "",
    isHelpful := jsOrBool isHelpful (decide (rating ≥ 4)),
    category := jsOrStr (conversation.messages.head?.bind (fun m => m.intent)) "general",
    responseTime :=
      match conversation.messages.getLast? with
      | some m => m.responseTime.getD 0
      | none => 0,
    sourceCount :=
      match conversation.messages.getLast? with
      | some m => m.knowledgeSources.length
      | none => 0 }

/-- The `POST /chat/feedback` handler (chat.js lines 306-389).  Missing
`conversationId` or a falsy rating → 400; rating outside [1,5] → 400
(note: the range test does not reject non-integers; `parseInt` truncates
them); conversation looked up scoped by `(_id, userId)`, else 404; the
last question/response are denormalized from the conversation when not
supplied; `feedback.save()` enforces the schema's required non-empty
question/botResponse (a validation throw lands in the catch → 500,
mutating nothing); on success the record is stored and the conversation
is stamped and re-saved. -/
def submitFeedback (convStore : List Conversation) (fs : List FeedbackRecord)
    (user : Identity) (conversationId : Option Nat) (rating : ℚ)
    (comment question response : Option String) (isHelpful : Option Bool) : FbResult :=
  match conversationId with
  | none => ⟨FbResp.err 400 "Conversation ID and rating are required", convStore, fs⟩
  | some cid =>
    if rating = 0 then
      ⟨FbResp.err 400 "Conversation ID and rating are required", convStore, fs⟩
    else if rating < 1 ∨ rating > 5 then
      ⟨FbResp.err 400 "Rating must be between 1 and 5", convStore, fs⟩
    else
      match convStore.find? (fun c => c.oid == cid && c.userId == user.id) with
      | none => ⟨FbResp.err 404 "Conversation not found or access denied", convStore, fs⟩
      | some conversation =>
        let userMessages := conversation.messages.filter (fun m => m.role == "user")
        let botMessages := conversation.messages.filter (fun m => m.role == "bot")
        let lastQuestion := jsOrStr question
          (match userMessages.getLast? with | some m => m.content | none => "")
        let lastResponse := jsOrStr response
          (match botMessages.getLast? with | some m => m.content | none => "")
        let record := feedbackRecordOf user conversation cid rating comment
          lastQuestion lastResponse isHelpful
        if lastQuestion = "" ∨ lastResponse = "" then
          ⟨FbResp.err 500 "Failed to submit feedback", convStore, fs⟩
        else
          let conversation' := { conversation with
            feedback := some ⟨jsParseInt rating, jsOrStr comment ""⟩ }
          ⟨FbResp.ok record, saveConv convStore conversation', fs ++ [record]⟩

/-! ## History, export, delete (chat.js lines 234-303, 455-566) -/

/-- `GET /chat/history/:sessionId` (chat.js lines 234-276): the query is
scoped by `(userId, sessionId)`; no hit → 404, else the transcript. -/
def getHistorySession (store : List Conversation) (uid : Nat) (sid : String) :
    Except Nat (String × List Msg) :=
  match store.find? (fun c => c.userId == uid && c.sessionId == sid) with
  | none => Except.error 404
  | some c => Except.ok (c.sessionId, c.messages)

/-- `GET /chat/export/:sessionId` (chat.js lines 490-541): scoped by
`(sessionId, userId)`; no hit → 404, else the export payload. -/
def exportConversation (store : List Conversation) (uid : Nat) (sid : String) :
    Except Nat (Nat × List Msg) :=
  match store.find? (fun c => c.sessionId == sid && c.userId == uid) with
  | none => Except.error 404
  | some c => Except.ok (c.messages.length, c.messages)

/-- Response of `DELETE /chat/:sessionId`: success or an error status. -/
inductive DelResp where
  | ok
  | err (status : Nat)
deriving DecidableEq

/-- Outcome of `DELETE /chat/:sessionId`. -/
structure DeleteResult where
  resp : DelResp
  convStore : List Conversation
  fs : List FeedbackRecord
deriving DecidableEq

/-- `DELETE /chat/:sessionId` (chat.js lines 455-487):
`findOneAndDelete` scoped by `(sessionId, userId)`; no hit → 404, else
the session is removed and every feedback record whose `conversationId`
is the deleted document's `_id` is deleted. -/
def deleteSessionOp (convStore : List Conversation) (fs : List FeedbackRecord)
    (uid : Nat) (sid : String) : DeleteResult :=
  match convStore.find? (fun c => c.sessionId == sid && c.userId == uid) with
  | none => ⟨DelResp.err 404, convStore, fs⟩
  | some c =>
    ⟨DelResp.ok, convStore.eraseP (fun d => d.sessionId == sid && d.userId == uid),
      fs.filter (fun f => !(f.conversationId == c.oid))⟩

/-- Outcome of `DELETE /chat`. -/
structure DeleteAllResult where
  deletedCount : Nat
  convStore : List Conversation
  fs : List FeedbackRecord
deriving DecidableEq

/-- `DELETE /chat` (chat.js lines 544-566): `deleteMany({userId})` over
conversations, reporting `deletedCount`, then `deleteMany({userId})`
over feedback. -/
def deleteAllOp (convStore : List Conversation) (fs : List FeedbackRecord)
    (uid : Nat) : DeleteAllResult :=
  ⟨(convStore.filter (fun c => c.userId == uid)).length,
    convStore.filter (fun c => !(c.userId == uid)),
    fs.filter (fun f => !(f.userId == uid))⟩

/-- `parseInt` of a rating that passed the route's range check is an
integer in [1,5]. -/
theorem jsParseInt_bounds (q : ℚ) (h1 : 1 ≤ q) (h2 : q ≤ 5) :
    1 ≤ jsParseInt q ∧ jsParseInt q ≤ 5 := by
  have h0 : (0 : ℚ) ≤ q := le_trans (by norm_num) h1
  unfold jsParseInt
  rw [if_pos h0]
  refine ⟨Rat.le_floor.mpr (by exact_mod_cast h1), ?_⟩
  have hfl : (Rat.floor q : ℚ) ≤ q := Rat.le_floor.mp le_rfl
  exact_mod_cast le_trans hfl h2

/-- A feedback submission with a found conversation, a rating passing
both checks, and supplied non-empty question/response strings stores the
constructed record and stamps the conversation. -/
theorem submitFeedback_accepts
    (convStore : List Conversation) (fs : List FeedbackRecord) (user : Identity)
    (cid : Nat) (conv : Conversation) (rating : ℚ) (comment : Option String)
    (q rsp : String) (ih : Option Bool)
    (hfind : convStore.find? (fun c => c.oid == cid && c.userId == user.id) = some conv)
    (h0 : ¬ rating = 0) (hrange : ¬ (rating < 1 ∨ rating > 5))
    (hq : ¬ q = "") (hr : ¬ rsp = "") :
    submitFeedback convStore fs user (some cid) rating comment (some q) (some rsp) ih =
      ⟨FbResp.ok (feedbackRecordOf user conv cid rating comment q rsp ih),
        saveConv convStore { conv with feedback := some ⟨jsParseInt rating, jsOrStr comment ""⟩ },
        fs ++ [feedbackRecordOf user conv cid rating comment q rsp ih]⟩ := by
  unfold submitFeedback
  dsimp only
  rw [if_neg h0, if_neg hrange, hfind]
  simp only [jsOrStr, if_neg hq, if_neg hr]
  rw [if_neg (by rintro (h | h) <;> [exact hq h; exact hr h])]

/-- `jsParseInt` of a nonnegative rational pinned between `z` and
`z + 1` is `z`. -/
theorem jsParseInt_eq_of (q : ℚ) (z : Int) (h0 : 0 ≤ q)
    (h1 : (z : ℚ) ≤ q) (h2 : q < z + 1) : jsParseInt q = z := by
  unfold jsParseInt
  rw [if_pos h0]
  have l1 : z ≤ Rat.floor q := Rat.le_floor.mpr h1
  have l2 : ¬ (z + 1) ≤ Rat.floor q := fun h => by
    have := Rat.le_floor.mp h
    push_cast at this
    exact absurd h2 (not_lt.mpr this)
  omega

/-- The conversation used by the concrete feedback examples. -/
def convA : Conversation :=
  { oid := 50, sessionId := "sess-a", userId := 1, userEmail := "john.doe@company.com",
    userName := "John", userRole := "employee", messages := [] }

/-- C3 counterexample: a feedback submission with the non-integer rating
5/2 on a found conversation is not rejected — it succeeds and stores a
record with the truncated rating 2. -/
theorem submitFeedback_accepts_rating_two_point_five :
    (submitFeedback [convA] [] employeeUser (some 50) ((5 : ℚ)/2) none
        (some "What are the working hours?") (some "Nine to five.") none).resp =
      FbResp.ok (feedbackRecordOf employeeUser convA 50 ((5 : ℚ)/2) none
        "What are the working hours?" "Nine to five." none) ∧
    (feedbackRecordOf employeeUser convA 50 ((5 : ℚ)/2) none
        "What are the working hours?" "Nine to five." none).rating = 2 ∧
    (submitFeedback [convA] [] employeeUser (some 50) ((5 : ℚ)/2) none
        (some "What are the working hours?") (some "Nine to five.") none).fs =
      [feedbackRecordOf employeeUser convA 50 ((5 : ℚ)/2) none
        "What are the working hours?" "Nine to five." none] := by
  have hacc := submitFeedback_accepts [convA] [] employeeUser 50 convA ((5 : ℚ)/2) none
    "What are the working hours?" "Nine to five." none (by decide)
    (by norm_num) (by norm_num) (by decide) (by decide)
  refine ⟨?_, ?_, ?_⟩
  · rw [hacc]
  · simp only [feedbackRecordOf]
    exact jsParseInt_eq_of _ 2 (by norm_num) (by norm_num) (by norm_num)
  · rw [hacc]
    rfl

/-- C3 amended: rating 0 is rejected as a missing required field and
rating 6 as out of range, mutating nothing; on a found conversation with
non-empty content, rating 3 is accepted with isHelpful defaulting to
false, rating 5 with isHelpful defaulting to true, and the non-integer
rating 5/2 is accepted too, stored truncated to the integer 2; every
stored rating is an integer in [1,5]. -/
theorem submitFeedback_rating_rules :
    (∀ convStore fs user cid comment question response ih,
        submitFeedback convStore fs user cid 0 comment question response ih =
          ⟨FbResp.err 400 "Conversation ID and rating are required", convStore, fs⟩) ∧
    (∀ convStore fs user cid comment question response ih,
        submitFeedback convStore fs user (some cid) 6 comment question response ih =
          ⟨FbResp.err 400 "Rating must be between 1 and 5", convStore, fs⟩) ∧
    (∀ convStore fs (user : Identity) (cid : Nat) conv comment q rsp,
        convStore.find? (fun c => c.oid == cid && c.userId == user.id) = some conv →
        ¬ q = "" → ¬ rsp = "" →
        ((submitFeedback convStore fs user (some cid) 3 comment (some q) (some rsp) none).resp =
            FbResp.ok (feedbackRecordOf user conv cid 3 comment q rsp none) ∧
          (feedbackRecordOf user conv cid 3 comment q rsp none).rating = 3 ∧
          (feedbackRecordOf user conv cid 3 comment q rsp none).isHelpful = false) ∧
        ((submitFeedback convStore fs user (some cid) 5 comment (some q) (some rsp) none).resp =
            FbResp.ok (feedbackRecordOf user conv cid 5 comment q rsp none) ∧
          (feedbackRecordOf user conv cid 5 comment q rsp none).rating = 5 ∧
          (feedbackRecordOf user conv cid 5 comment q rsp none).isHelpful = true) ∧
        ((submitFeedback convStore fs user (some cid) ((5 : ℚ)/2) comment (some q) (some rsp) none).resp =
            FbResp.ok (feedbackRecordOf user conv cid ((5 : ℚ)/2) comment q rsp none) ∧
          (feedbackRecordOf user conv cid ((5 : ℚ)/2) comment q rsp none).rating = 2)) ∧
    (∀ convStore fs user cid rating comment question response ih r,
        (submitFeedback convStore fs user cid rating comment question response ih).resp =
          FbResp.ok r →
        1 ≤ r.rating ∧ r.rating ≤ 5) := by
  refine ⟨?_, ?_, ?_, ?_⟩
  · intro convStore fs user cid comment question response ih
    cases cid with
    | none => rfl
    | some cid => unfold submitFeedback; dsimp only; rw [if_pos rfl]
  · intro convStore fs user cid comment question response ih
    unfold submitFeedback
    dsimp only
    rw [if_neg (by norm_num), if_pos (by norm_num)]
  · intro convStore fs user cid conv comment q rsp hfind hq hr
    refine ⟨⟨?_, ?_, ?_⟩, ⟨?_, ?_, ?_⟩, ⟨?_, ?_⟩⟩
    · rw [submitFeedback_accepts convStore fs user cid conv 3 comment q rsp none hfind
        (by norm_num) (by norm_num) hq hr]
    · simp only [feedbackRecordOf]
      exact jsParseInt_eq_of _ 3 (by norm_num) (by norm_num) (by norm_num)
    · simp only [feedbackRecordOf, jsOrBool, decide_eq_false_iff_not]
      norm_num
    · rw [submitFeedback_accepts convStore fs user cid conv 5 comment q rsp none hfind
        (by norm_num) (by norm_num) hq hr]
    · simp only [feedbackRecordOf]
      exact jsParseInt_eq_of _ 5 (by norm_num) (by norm_num) (by norm_num)
    · simp only [feedbackRecordOf, jsOrBool, decide_eq_true_eq]
      norm_num
    · rw [submitFeedback_accepts convStore fs user cid conv ((5 : ℚ)/2) comment q rsp none hfind
        (by norm_num) (by norm_num) hq hr]
    · simp only [feedbackRecordOf]
      exact jsParseInt_eq_of _ 2 (by norm_num) (by norm_num) (by norm_num)
  · intro convStore fs user cid rating comment question response ih r h
    cases cid with
    | none => simp [submitFeedback] at h
    | some cid =>
      unfold submitFeedback at h
      dsimp only at h
      by_cases h0 : rating = 0
      · rw [if_pos h0] at h; exact absurd h (by simp)
      · rw [if_neg h0] at h
        by_cases hrange : rating < 1 ∨ rating > 5
        · rw [if_pos hrange] at h; exact absurd h (by simp)
        · rw [if_neg hrange] at h
          push_neg at hrange
          cases hfind : convStore.find? (fun c => c.oid == cid && c.userId == user.id) with
          | none => rw [hfind] at h; exact absurd h (by simp)
          | some conv =>
            rw [hfind] at h
            dsimp only at h
            split at h
            · exact absurd h (by simp)
            · simp only [FbResp.ok.injEq] at h
              rw [← h]
              exact jsParseInt_bounds rating hrange.1 hrange.2

/-- Witness for the amended C3 theorem: the rating-3 acceptance at a
concrete conversation. -/
theorem submitFeedback_rating_rules_witness :
    (submitFeedback [convA] [] employeeUser (some 50) 3 none (some "Q?") (some "A.") none).resp =
      FbResp.ok (feedbackRecordOf employeeUser convA 50 3 none "Q?" "A." none) ∧
    (feedbackRecordOf employeeUser convA 50 3 none "Q?" "A." none).rating = 3 ∧
    (feedbackRecordOf employeeUser convA 50 3 none "Q?" "A." none).isHelpful = false :=
  (submitFeedback_rating_rules.2.2.1 [convA] [] employeeUser 50 convA none "Q?" "A."
    (by decide) (by decide) (by decide)).1

/-- C10: when isHelpful is explicitly supplied as false together with a
rating of 4 or 5, the stored record has isHelpful = true — the rating
derived default `isHelpful || (rating >= 4)` overrides the explicit
falsy value. -/
theorem submitFeedback_overrides_explicit_false
    (convStore : List Conversation) (fs : List FeedbackRecord) (user : Identity)
    (cid : Nat) (conv : Conversation) (rating : ℚ) (comment : Option String)
    (q rsp : String)
    (hfind : convStore.find? (fun c => c.oid == cid && c.userId == user.id) = some conv)
    (hq : ¬ q = "") (hr : ¬ rsp = "") (hrat : rating = 4 ∨ rating = 5) :
    (submitFeedback convStore fs user (some cid) rating comment
        (some q) (some rsp) (some false)).resp =
      FbResp.ok (feedbackRecordOf user conv cid rating comment q rsp (some false)) ∧
    (feedbackRecordOf user conv cid rating comment q rsp (some false)).isHelpful = true := by
  have h0 : ¬ rating = 0 := by rcases hrat with rfl | rfl <;> norm_num
  have hrange : ¬ (rating < 1 ∨ rating > 5) := by rcases hrat with rfl | rfl <;> norm_num
  constructor
  · rw [submitFeedback_accepts convStore fs user cid conv rating comment q rsp (some false)
      hfind h0 hrange hq hr]
  · simp only [feedbackRecordOf, jsOrBool, decide_eq_true_eq]
    rcases hrat with rfl | rfl <;> norm_num

/-- Witness for C10 at a concrete input. -/
theorem submitFeedback_overrides_explicit_false_witness :
    (submitFeedback [convA] [] employeeUser (some 50) 5 none
        (some "Q?") (some "A.") (some false)).resp =
      FbResp.ok (feedbackRecordOf employeeUser convA 50 5 none "Q?" "A." (some false)) ∧
    (feedbackRecordOf employeeUser convA 50 5 none "Q?" "A." (some false)).isHelpful = true :=
  submitFeedback_overrides_explicit_false [convA] [] employeeUser 50 convA 5 none "Q?" "A."
    (by decide) (by decide) (by decide) (Or.inr rfl)

/-- C8: deleting one owned session succeeds and removes every feedback
record referencing the deleted conversation's id; deleting all of a
user's sessions reports a count equal to the number of sessions that
existed for that user and — given the creation invariant that feedback
on a user's conversation carries that user's id — leaves no feedback
referencing any of that user's sessions. -/
theorem delete_cascades_feedback :
    (∀ (convStore : List Conversation) (fs : List FeedbackRecord) (uid : Nat)
       (sid : String) (c : Conversation),
        convStore.find? (fun d => d.sessionId == sid && d.userId == uid) = some c →
        (deleteSessionOp convStore fs uid sid).resp = DelResp.ok ∧
        ∀ f ∈ (deleteSessionOp convStore fs uid sid).fs, ¬ f.conversationId = c.oid) ∧
    (∀ (convStore : List Conversation) (fs : List FeedbackRecord) (uid : Nat),
        (deleteAllOp convStore fs uid).deletedCount =
          (convStore.filter (fun c => c.userId == uid)).length ∧
        ((∀ f ∈ fs, ∀ c ∈ convStore, c.userId = uid → f.conversationId = c.oid →
            f.userId = uid) →
          ∀ f ∈ (deleteAllOp convStore fs uid).fs, ∀ c ∈ convStore,
            c.userId = uid → ¬ f.conversationId = c.oid)) := by
  constructor
  · intro convStore fs uid sid c hfind
    unfold deleteSessionOp
    rw [hfind]
    refine ⟨rfl, ?_⟩
    intro f hf
    rw [List.mem_filter] at hf
    obtain ⟨-, hp⟩ := hf
    simpa using hp
  · intro convStore fs uid
    refine ⟨rfl, ?_⟩
    intro hinv f hf d hd hdu hcid
    unfold deleteAllOp at hf
    rw [List.mem_filter] at hf
    obtain ⟨hfm, hp⟩ := hf
    have hne : ¬ f.userId = uid := by simpa using hp
    exact hne (hinv f hfm d hd hdu hcid)

/-- A feedback record attached to the concrete conversation `convA`. -/
def recB : FeedbackRecord :=
  { conversationId := 50, userId := 1, userEmail := "john.doe@company.com",
    userRole := "employee", question := "Q?", botResponse := "A.", rating := 5,
    comment := "", isHelpful := true, category := "general", responseTime := 0,
    sourceCount := 0 }

/-- Witness for C8 at a concrete input: deleting `convA` succeeds. -/
theorem delete_cascades_feedback_witness :
    (deleteSessionOp [convA] [recB] 1 "sess-a").resp = DelResp.ok :=
  (delete_cascades_feedback.1 [convA] [recB] 1 "sess-a" convA (by decide)).1

/-- A conversation owned by a different user (id 2). -/
def otherConv : Conversation :=
  { oid := 70, sessionId := "sess-o", userId := 2, userEmail := "jane.smith@company.com",
    userName := "Jane", userRole := "employee",
    messages := [{ role := "user", content := "secret question" },
                 { role := "bot", content := "secret answer" }] }

/-- C7 counterexample: a chat turn supplying another user's existing
session id does not respond 404 — the handler silently creates a fresh
session and answers with the success payload (and none of the other
user's data). -/
theorem handleTurn_foreign_session_not_404 :
    (handleTurn [otherConv] [] (fun _ _ => false) (fun _ _ => 0)
        (fun _ => Except.ok "Hello!") employeeUser "hi" (some "sess-o")
        "fresh-1" 71 5 77 none none).resp =
      ChatResp.ok "Hello!" "fresh-1" defaultReplies 71 0 := by
  decide

/-- C7 amended: all session/conversation operations scope their lookup
by both the identifier and the caller's injected user id; when the
identifier exists only for a different user, history, export, delete and
feedback respond 404 with the stores unchanged, while the chat-turn
lookup instead resolves to a fresh empty session owned by the caller —
in every case none of the other user's data is returned. -/
theorem ownership_scoping
    (convStore : List Conversation) (fs : List FeedbackRecord) (user : Identity) (sid : String)
    (hfor : ∀ d ∈ convStore, d.sessionId = sid → ¬ d.userId = user.id) :
    getHistorySession convStore user.id sid = Except.error 404 ∧
    exportConversation convStore user.id sid = Except.error 404 ∧
    deleteSessionOp convStore fs user.id sid = ⟨DelResp.err 404, convStore, fs⟩ ∧
    (∀ freshSid freshOid,
      resolveSession convStore user (some sid) freshSid freshOid =
        { oid := freshOid, sessionId := freshSid, userId := user.id, userEmail := user.email,
          userName := user.name, userRole := user.role, messages := [] }) ∧
    (∀ (cid : Nat) (rating : ℚ) comment question response ih,
      (∀ d ∈ convStore, d.oid = cid → ¬ d.userId = user.id) →
      ¬ rating = 0 → ¬ (rating < 1 ∨ rating > 5) →
      submitFeedback convStore fs user (some cid) rating comment question response ih =
        ⟨FbResp.err 404 "Conversation not found or access denied", convStore, fs⟩) := by
  have hnone1 : convStore.find? (fun c => c.userId == user.id && c.sessionId == sid) = none := by
    rw [List.find?_eq_none]
    intro x hx
    simp only [Bool.and_eq_true, beq_iff_eq, not_and]
    intro hxu hxs
    exact hfor x hx hxs hxu
  have hnone2 : convStore.find? (fun c => c.sessionId == sid && c.userId == user.id) = none := by
    rw [List.find?_eq_none]
    intro x hx
    simp only [Bool.and_eq_true, beq_iff_eq, not_and]
    intro hxs
    exact hfor x hx hxs
  refine ⟨?_, ?_, ?_, ?_, ?_⟩
  · unfold getHistorySession
    rw [hnone1]
  · unfold exportConversation
    rw [hnone2]
  · unfold deleteSessionOp
    rw [hnone2]
  · intro freshSid freshOid
    unfold resolveSession
    dsimp only [Option.bind]
    rw [hnone2]
  · intro cid rating comment question response ih hforOid h0 hrange
    have hnone3 : convStore.find? (fun c => c.oid == cid && c.userId == user.id) = none := by
      rw [List.find?_eq_none]
      intro x hx
      simp only [Bool.and_eq_true, beq_iff_eq, not_and]
      intro hxo
      exact hforOid x hx hxo
    unfold submitFeedback
    dsimp only
    rw [if_neg h0, if_neg hrange, hnone3]

/-- Witness for the amended C7 theorem at a concrete input: the history
lookup of another user's session id responds 404. -/
theorem ownership_scoping_witness :
    getHistorySession [otherConv] employeeUser.id "sess-o" = Except.error 404 :=
  (ownership_scoping [otherConv] [] employeeUser "sess-o" (by decide)).1

end OnboardAssist
